import Mathlib

/-!
Shallow embedding of the parklee-backend reservation/session admission core
(src/models.py, src/crud.py, src/routers/reservations.py,
src/routers/sessions.py, src/routers/spots.py, src/demo.py).

Times are integers (minutes on a single UTC axis; the code normalises every
datetime to UTC before comparing, so one linear axis is faithful).  Primary
keys are naturals.  Enum columns and role strings are Lean `String`s because
the source compares them as strings (in particular `zone_type != user.role`
compares values of two different enums).

Each router operation is embedded as a function from a database snapshot and
a request to an `OpResult`: the HTTP outcome, the list of snapshots published
by each `db.commit()` in order, and the final snapshot.  Recording the commit
points keeps the transaction structure of the source visible.
-/

namespace Parklee

structure User where
  id : Nat
  license_plate : String
  role : String
  deriving Repr, DecidableEq

structure ParkingZone where
  id : Nat
  zone_type : String
  deriving Repr, DecidableEq

structure ParkingSpot where
  id : Nat
  lot_name : String
  is_vip : Bool
  spot_type : String
  status : String
  parking_zone_id : Nat
  deriving Repr, DecidableEq

structure Reservation where
  id : Nat
  user_id : Nat
  spot_id : Nat
  event_id : Option Nat
  start_time : Int
  end_time : Int
  status : String
  deriving Repr, DecidableEq

structure ParkingSession where
  id : Nat
  user_id : Nat
  spot_id : Nat
  check_in_time : Int
  check_out_time : Option Int
  deriving Repr, DecidableEq

structure Events where
  id : Nat
  start_time : Option Int
  allowed_parking_lots : List String
  deriving Repr, DecidableEq

structure Report where
  id : Nat
  user_id : Option Nat
  license_plate : Option String
  spot_id : Option Nat
  zone_id : Option Nat
  report_type : String
  deriving Repr, DecidableEq

structure DB where
  users : List User
  zones : List ParkingZone
  spots : List ParkingSpot
  reservations : List Reservation
  sessions : List ParkingSession
  events : List Events
  reports : List Report
  deriving Repr, DecidableEq

/-- The values of the `user_roles` enum column declared in models.py line 21:
Enum("student", "staff", "admin", "visitor"). -/
def user_roles : List String := ["student", "staff", "admin", "visitor"]

inductive ApiError
  | notFound (detail : String)
  | forbidden (detail : String)
  | badRequest (detail : String)
  deriving Repr, DecidableEq

instance {ε α : Type} [DecidableEq ε] [DecidableEq α] :
    DecidableEq (Except ε α) := fun x y =>
  match x, y with
  | .error a, .error b =>
    if h : a = b then .isTrue (h ▸ rfl)
    else .isFalse (fun he => h (Except.error.inj he))
  | .error _, .ok _ => .isFalse (fun he => Except.noConfusion he)
  | .ok _, .error _ => .isFalse (fun he => Except.noConfusion he)
  | .ok a, .ok b =>
    if h : a = b then .isTrue (h ▸ rfl)
    else .isFalse (fun he => h (Except.ok.inj he))

/-- Outcome of one endpoint call: the response, the database snapshots
published by each db.commit() in order, and the final snapshot (the last
commit, or the initial database when nothing was committed). -/
structure OpResult (α : Type) where
  result : Except ApiError α
  commits : List DB
  final : DB

structure ReservationCreate where
  user_id : Nat
  spot_id : Nat
  event_id : Option Nat
  start_time : Int
  end_time : Int
  deriving Repr, DecidableEq

structure ReservationCancel where
  reservation_id : Nat
  user_id : Nat
  deriving Repr, DecidableEq

structure SessionCreate where
  license_plate : String
  spot_id : Nat
  deriving Repr, DecidableEq

/-- Fresh primary key for an inserted reservation (stands in for uuid4). -/
def nextResId (db : DB) : Nat :=
  db.reservations.foldr (fun r m => max (r.id + 1) m) 0

/-- Fresh primary key for an inserted session (stands in for uuid4). -/
def nextSessionId (db : DB) : Nat :=
  db.sessions.foldr (fun s m => max (s.id + 1) m) 0

/-- Fresh primary key for an inserted report (stands in for uuid4). -/
def nextReportId (db : DB) : Nat :=
  db.reports.foldr (fun r m => max (r.id + 1) m) 0

/-- In-place update of one spot row: `spot.status = st` followed by commit. -/
def updateSpotStatus (spots : List ParkingSpot) (sid : Nat) (st : String) :
    List ParkingSpot :=
  spots.map fun s => if s.id == sid then { s with status := st } else s

/-- The zone restriction shared verbatim by reservations.py lines 45-50 and
sessions.py lines 41-42: nested ifs collapsed to one conjunction. -/
def zoneViolation (role zone_type : String) : Bool :=
  (role == "staff" || role == "student" || role == "visitor") &&
  zone_type != role && zone_type != "general"

/-- reservations.py line 36: the event is looked up only when an event_id was
sent; a dangling event_id silently yields no event. -/
def eventForRequest (db : DB) (event_id : Option Nat) : Option Events :=
  match event_id with
  | none => none
  | some eid => db.events.find? fun ev => ev.id == eid

/-- reservations.py lines 82-85: the general (non-event) time checks. -/
def generalTimeError (res : ReservationCreate) (now : Int) : Option ApiError :=
  if res.start_time < now then
    some (.badRequest "Reservation start time cannot be in the past.")
  else if res.end_time ≤ res.start_time then
    some (.badRequest "Reservation end time must be after start time.")
  else none

/-- reservations.py lines 55-85: when an event with a start_time is attached
the branch only normalises and prints times — the allowed-lot check (line 69)
and the 30-minute-window check (line 72) are commented out, so no error can
arise; otherwise the general time checks run. -/
def windowError (db : DB) (res : ReservationCreate) (now : Int) :
    Option ApiError :=
  match eventForRequest db res.event_id with
  | some ev => if ev.start_time.isSome then none else generalTimeError res now
  | none => generalTimeError res now

/-- reservations.py lines 90-97: first active/pending reservation on the spot
whose interval strictly overlaps the requested half-open window. -/
def firstOverlap (db : DB) (res : ReservationCreate) : Option Reservation :=
  db.reservations.find? fun r =>
    r.spot_id == res.spot_id &&
    (r.status == "active" || r.status == "pending") &&
    decide (res.start_time < r.end_time) &&
    decide (res.end_time > r.start_time)

/-- reservations.py lines 101-104: first open session on the spot. -/
def openSessionOnSpot (db : DB) (spot_id : Nat) : Option ParkingSession :=
  db.sessions.find? fun s => s.spot_id == spot_id && s.check_out_time.isNone

/-- POST /reservations/reserve-spot (reservations.py lines 17-120). -/
def create_reservation (db : DB) (res : ReservationCreate) (now : Int) :
    OpResult Reservation :=
  match db.users.find? (fun u => u.id == res.user_id),
        db.spots.find? (fun s => s.id == res.spot_id) with
  | none, _ => ⟨.error (.notFound "User or Spot not found"), [], db⟩
  | some _, none => ⟨.error (.notFound "User or Spot not found"), [], db⟩
  | some user, some spot =>
    match db.zones.find? (fun z => z.id == spot.parking_zone_id) with
    | none => ⟨.error (.notFound "Parking zone for spot not found"), [], db⟩
    | some zone =>
      if zoneViolation user.role zone.zone_type then
        ⟨.error (.forbidden "User role is not allowed to park in this zone type"),
          [], db⟩
      else
        match windowError db res now with
        | some e => ⟨.error e, [], db⟩
        | none =>
          if spot.is_vip && user.role != "vip" then
            ⟨.error (.forbidden "Not authorized for VIP spot"), [], db⟩
          else
            match firstOverlap db res with
            | some _ =>
              ⟨.error (.badRequest "Spot already reserved in that period"), [], db⟩
            | none =>
              match openSessionOnSpot db res.spot_id with
              | some _ =>
                ⟨.error (.badRequest
                    "Spot is currently occupied by an active parking session."),
                  [], db⟩
              | none =>
                let obj : Reservation :=
                  ⟨nextResId db, res.user_id, res.spot_id, res.event_id,
                    res.start_time, res.end_time, "pending"⟩
                let db1 : DB := { db with reservations := db.reservations ++ [obj] }
                let db2 : DB :=
                  { db1 with spots := updateSpotStatus db1.spots res.spot_id "occupied" }
                ⟨.ok obj, [db1, db2], db2⟩

/-- POST /reservations/cancel (reservations.py lines 123-170). -/
def cancel_reservation (db : DB) (c : ReservationCancel) (now : Int) :
    OpResult Unit :=
  match db.reservations.find? (fun r => r.id == c.reservation_id) with
  | none => ⟨.error (.notFound "Reservation not found."), [], db⟩
  | some resv =>
    match db.users.find? (fun u => u.id == c.user_id) with
    | none => ⟨.error (.notFound "User not found."), [], db⟩
    | some user =>
      if resv.user_id != user.id && user.role != "admin" then
        ⟨.error (.forbidden "Not authorized to cancel this reservation."), [], db⟩
      else if resv.status == "cancelled" then
        ⟨.error (.badRequest "Reservation is already cancelled."), [], db⟩
      else if resv.status == "active" && decide (resv.start_time < now) then
        ⟨.error (.badRequest
            "Cannot cancel an active reservation that has already started."),
          [], db⟩
      else
        let db1 : DB := { db with reservations := db.reservations.map fun r =>
          if r.id == c.reservation_id then { r with status := "cancelled" } else r }
        match db1.spots.find? (fun s => s.id == resv.spot_id) with
        | none => ⟨.ok (), [db1], db1⟩
        | some spot =>
          if spot.status == "occupied" then
            let otherRes := db1.reservations.find? fun r =>
              r.spot_id == spot.id && (r.status == "active" || r.status == "pending") &&
              r.id != resv.id && decide (r.end_time > now)
            let otherSes := db1.sessions.find? fun s =>
              s.spot_id == spot.id && s.check_out_time.isNone
            if otherRes.isSome || otherSes.isSome then
              ⟨.ok (), [db1], db1⟩
            else
              let db2 : DB := { db1 with spots := updateSpotStatus db1.spots spot.id "empty" }
              ⟨.ok (), [db1, db2], db2⟩
          else ⟨.ok (), [db1], db1⟩

/-- sessions.py lines 57-64: active reservation for this exact user and spot
covering now (note end_time ≥ now here, unlike the strict bound at check-out). -/
def activeReservationFor (db : DB) (user_id spot_id : Nat) (now : Int) :
    Option Reservation :=
  db.reservations.find? fun r =>
    r.user_id == user_id && r.spot_id == spot_id &&
    decide (r.start_time ≤ now) && decide (r.end_time ≥ now) &&
    r.status == "active"

/-- What sessions.py check_user_and_zone_rules hands back: either an HTTP
failure (with the report commits it performed), or the loaded rows. -/
inductive RulesOutcome
  | failure (e : ApiError) (commits : List DB) (final : DB)
  | success (user : User) (spot : ParkingSpot) (zone : ParkingZone)
      (active_res : Option Reservation)

/-- sessions.py lines 16-71. -/
def check_user_and_zone_rules (db : DB) (license_plate : String)
    (spot_id : Nat) (now : Int) : RulesOutcome :=
  match db.users.find? (fun u => u.license_plate == license_plate) with
  | none =>
    let rep : Report :=
      ⟨nextReportId db, none, some license_plate, some spot_id, none,
        "unauthorized_parking"⟩
    let db1 : DB := { db with reports := db.reports ++ [rep] }
    .failure (.forbidden "License plate not recognized. Report generated.")
      [db1] db1
  | some user =>
    match db.spots.find? (fun s => s.id == spot_id) with
    | none => .failure (.notFound "Parking spot not found.") [] db
    | some spot =>
      match db.zones.find? (fun z => z.id == spot.parking_zone_id) with
      | none => .failure (.notFound "Parking zone not found for this spot.") [] db
      | some zone =>
        if zoneViolation user.role zone.zone_type then
          let rep : Report :=
            ⟨nextReportId db, some user.id, some license_plate, some spot_id,
              some zone.id, "wrong_zone_entry"⟩
          let db1 : DB := { db with reports := db.reports ++ [rep] }
          .failure
            (.forbidden "You are not authorized to park in this zone. Report generated.")
            [db1] db1
        else
          let active_res := activeReservationFor db user.id spot_id now
          if active_res.isNone && spot.spot_type == "reserved" && user.role != "admin" then
            .failure
              (.forbidden
                "This is a reserved spot and you do not have an active reservation.")
              [] db
          else
            .success user spot zone active_res

/-- POST /sessions/check-in (sessions.py lines 74-116). -/
def check_in (db : DB) (s : SessionCreate) (now : Int) :
    OpResult ParkingSession :=
  match check_user_and_zone_rules db s.license_plate s.spot_id now with
  | .failure e commits final => ⟨.error e, commits, final⟩
  | .success user spot _zone _active_res =>
    match db.sessions.find? (fun ps => ps.user_id == user.id && ps.check_out_time.isNone) with
    | some _ =>
      ⟨.error (.badRequest "User already has an active parking session."), [], db⟩
    | none =>
      match db.sessions.find? (fun ps => ps.spot_id == s.spot_id && ps.check_out_time.isNone) with
      | some _ =>
        ⟨.error (.badRequest "Spot is already occupied by another session."), [], db⟩
      | none =>
        if spot.status != "empty" then
          ⟨.error (.badRequest "Spot is not available for check-in."), [], db⟩
        else
          let ses : ParkingSession := ⟨nextSessionId db, user.id, s.spot_id, now, none⟩
          let db1 : DB := { db with sessions := db.sessions ++ [ses] }
          let db2 : DB :=
            { db1 with spots := updateSpotStatus db1.spots s.spot_id "occupied" }
          ⟨.ok ses, [db1, db2], db2⟩

/-- POST /sessions/check-out (sessions.py lines 119-150). -/
def check_out (db : DB) (session_id : Nat) (now : Int) : OpResult Unit :=
  match db.sessions.find? (fun s => s.id == session_id) with
  | none => ⟨.error (.notFound "Active session not found or already checked out."), [], db⟩
  | some ses =>
    if ses.check_out_time.isSome then
      ⟨.error (.notFound "Active session not found or already checked out."), [], db⟩
    else
      let db1 : DB := { db with sessions := db.sessions.map fun s =>
        if s.id == session_id then { s with check_out_time := some now } else s }
      match db1.spots.find? (fun sp => sp.id == ses.spot_id) with
      | none => ⟨.ok (), [db1], db1⟩
      | some spot =>
        let overlapping := db1.reservations.find? fun r =>
          r.spot_id == spot.id && r.status == "active" &&
          decide (r.start_time ≤ now) && decide (r.end_time > now)
        let st := if overlapping.isSome then "reserved" else "empty"
        let db2 : DB := { db1 with spots := updateSpotStatus db1.spots spot.id st }
        ⟨.ok (), [db1, db2], db2⟩

/-- GET /spots/available-spots (spots.py lines 143-174): a spot is listed
unless an open session sits on it, or an `active` reservation covers now in
query order start_time ≤ now < end_time, or its cached status is occupied
or under_maintenance. -/
def get_available_spots (db : DB) (now : Int) : List ParkingSpot :=
  db.spots.filter fun sp =>
    !(db.sessions.any fun s => s.spot_id == sp.id && s.check_out_time.isNone) &&
    !(db.reservations.any fun r =>
        r.spot_id == sp.id && decide (r.start_time ≤ now) &&
        decide (r.end_time > now) && r.status == "active") &&
    !(sp.status == "occupied" || sp.status == "under_maintenance")

/-- The standalone ReservationValidator.validate of demo.py (lines 48-85),
as a function of its constructor inputs; returns the first raised message. -/
def validatorValidate (user_role : String) (spot_is_vip : Bool)
    (parking_zone_type : String) (existing_reservations_statuses : List String)
    (spot_currently_occupied : Bool) (res_start_time res_end_time : Int)
    (now : Int) (event_start_time : Option Int)
    (event_allowed_parking_lots : List String) (spot_lot_name : String) :
    Except String Unit :=
  if existing_reservations_statuses.any (fun st => st == "active" || st == "pending") then
    .error "User already has an active or pending reservation."
  else if zoneViolation user_role parking_zone_type then
    .error "User role is not allowed to park in this zone type"
  else
    let timeErr : Option String :=
      match event_start_time with
      | some es =>
        if !event_allowed_parking_lots.isEmpty &&
            !(event_allowed_parking_lots.contains spot_lot_name) then
          some "This parking lot is not available for the selected event."
        else if now < es - 30 || res_start_time > es then
          some "Reservation for an event can only be made within 30 minutes before the event starts."
        else none
      | none =>
        if res_start_time < now then
          some "Reservation start time cannot be in the past."
        else if res_end_time ≤ res_start_time then
          some "Reservation end time must be after start time."
        else none
    match timeErr with
    | some e => .error e
    | none =>
      if spot_is_vip && user_role != "vip" then
        .error "Not authorized for VIP spot."
      else if spot_currently_occupied then
        .error "Spot is currently occupied by an active parking session."
      else .ok ()

/-- The four core operations of the admission core, acting on a snapshot. -/
inductive Op
  | createRes (req : ReservationCreate)
  | cancelRes (req : ReservationCancel)
  | checkIn (req : SessionCreate)
  | checkOut (session_id : Nat)

/-- Final database snapshot after one core operation. -/
def applyOp (db : DB) (op : Op) (now : Int) : DB :=
  match op with
  | .createRes req => (create_reservation db req now).final
  | .cancelRes req => (cancel_reservation db req now).final
  | .checkIn req => (check_in db req now).final
  | .checkOut sid => (check_out db sid now).final

/-- No two distinct pending/active reservations on the same spot share a
point of their half-open windows. -/
def LiveOverlapFree (rs : List Reservation) : Prop :=
  ∀ r1 ∈ rs, ∀ r2 ∈ rs, r1 ≠ r2 → r1.spot_id = r2.spot_id →
    (r1.status = "pending" ∨ r1.status = "active") →
    (r2.status = "pending" ∨ r2.status = "active") →
    ∀ t : Int,
      ¬(r1.start_time ≤ t ∧ t < r1.end_time ∧ r2.start_time ≤ t ∧ t < r2.end_time)

/-- The spec wording of not-free for the availability listing: an open
session, or an active or pending reservation whose window covers t, or a
cached status of occupied or under_maintenance. -/
def specSpotNotFree (db : DB) (sp : ParkingSpot) (t : Int) : Prop :=
  (∃ s ∈ db.sessions, s.spot_id = sp.id ∧ s.check_out_time = none) ∨
  (∃ r ∈ db.reservations, r.spot_id = sp.id ∧
    (r.status = "active" ∨ r.status = "pending") ∧
    r.start_time ≤ t ∧ t < r.end_time) ∨
  sp.status = "occupied" ∨ sp.status = "under_maintenance"

/-! Concrete fixtures used by witnesses and counterexamples. -/

def exUser : User := ⟨1, "P1", "student"⟩

def exZone : ParkingZone := ⟨1, "general"⟩

def exSpotEmpty : ParkingSpot := ⟨1, "Lot B", false, "regular", "empty", 1⟩

def exSpotReserved : ParkingSpot := ⟨1, "Lot B", false, "regular", "reserved", 1⟩

def exPending : Reservation := ⟨1, 1, 1, none, 10, 20, "pending"⟩

/-- Pending reservation whose window [0, 100) covers the instant 50. -/
def exPendingWide : Reservation := ⟨1, 1, 1, none, 0, 100, "pending"⟩

def exEvent : Events := ⟨5, some 840, ["Lot A"]⟩

/-- Database with one pending reservation [10, 20) on the only spot. -/
def exDb : DB := ⟨[exUser], [exZone], [exSpotEmpty], [exPending], [], [], []⟩

/-- Database with a wide pending reservation and the spot cached as empty. -/
def exDbWide : DB := ⟨[exUser], [exZone], [exSpotEmpty], [exPendingWide], [], [], []⟩

/-- Database with no reservations at all. -/
def exDbNoRes : DB := ⟨[exUser], [exZone], [exSpotEmpty], [], [], [], []⟩

/-- Database whose spot is cached as `reserved` while its only reservation is
pending. -/
def exDbReservedSpot : DB := ⟨[exUser], [exZone], [exSpotReserved], [exPending], [], [], []⟩

/-- Database carrying the event (start 840, allowed lots = Lot A) and a spot
in Lot B. -/
def exDbEvent : DB := ⟨[exUser], [exZone], [exSpotEmpty], [], [], [exEvent], []⟩

/-- Event-linked request sent 240 minutes before the event start, for a
window beginning after the event start, on a spot outside the allowed lots. -/
def exReqEvent : ReservationCreate := ⟨1, 1, some 5, 900, 910⟩

/-- Overlapping request [15, 25) against the pending reservation [10, 20). -/
def exReqOverlap : ReservationCreate := ⟨1, 1, none, 15, 25⟩

/-- Non-overlapping request [20, 30) touching the boundary of [10, 20). -/
def exReqBoundary : ReservationCreate := ⟨1, 1, none, 20, 30⟩

/-- Spot cached as occupied. -/
def exSpotOccupied : ParkingSpot := ⟨1, "Lot B", false, "regular", "occupied", 1⟩

/-- Database whose spot is cached as occupied while its only reservation is
pending. -/
def exDbOccupied : DB := ⟨[exUser], [exZone], [exSpotOccupied], [exPending], [], [], []⟩

/-- Event-linked request for the spec scenario: event starts at 840 (14:00),
request submitted at 805 (13:25, 35 minutes early) for a window starting at
820 (13:40). -/
def exReqEventOnTime : ReservationCreate := ⟨1, 1, some 5, 820, 840⟩

/-- The snapshot published by the first commit of a successful reservation
creation in the no-reservation fixture: the pending row is persisted while
the spot status is still `empty`. -/
def exMidCommit : DB :=
  ⟨[exUser], [exZone], [exSpotEmpty], [⟨0, 1, 1, none, 20, 30, "pending"⟩], [], [], []⟩

/-- C3 (amended): a spot is listed by the availability endpoint iff it is a
spot of the database and no open session sits on it and no reservation with
status active covers now and its cached status is neither occupied nor
under_maintenance (the endpoint ignores pending reservations). -/
theorem get_available_spots_mem (db : DB) (now : Int) (sp : ParkingSpot) :
    sp ∈ get_available_spots db now ↔
      sp ∈ db.spots ∧
      (¬∃ s ∈ db.sessions, s.spot_id = sp.id ∧ s.check_out_time = none) ∧
      (¬∃ r ∈ db.reservations, r.spot_id = sp.id ∧ r.start_time ≤ now ∧
          now < r.end_time ∧ r.status = "active") ∧
      ¬(sp.status = "occupied" ∨ sp.status = "under_maintenance") := by
  simp [get_available_spots, List.mem_filter, List.any_eq_true,
    Option.isNone_iff_eq_none, and_assoc]

/-- C3 (counterexample): a pending reservation covers the instant 50 on the
only spot, so by the claim the spot is not free at 50, yet the endpoint
lists it. -/
theorem get_available_spots_pending_listed :
    specSpotNotFree exDbWide exSpotEmpty 50 ∧
      exSpotEmpty ∈ get_available_spots exDbWide 50 := by
  constructor
  · right; left
    exact ⟨exPendingWide, by decide, by decide, by decide, by decide, by decide⟩
  · decide

/-- C5: the zone restriction of reservation admission and session admission.
For the three restricted roles the check passes exactly when the zone type
equals the role or is general; admin and vip are never rejected by it; and
whenever the check fires, both create_reservation and check_in fail with the
403 zone error. -/
theorem zone_policy_spec :
    (∀ role zt, role = "staff" ∨ role = "student" ∨ role = "visitor" →
      (zoneViolation role zt = false ↔ (zt = role ∨ zt = "general"))) ∧
    (∀ zt, zoneViolation "admin" zt = false ∧ zoneViolation "vip" zt = false) ∧
    (∀ db res now u sp z,
      db.users.find? (fun x => x.id == res.user_id) = some u →
      db.spots.find? (fun x => x.id == res.spot_id) = some sp →
      db.zones.find? (fun x => x.id == sp.parking_zone_id) = some z →
      zoneViolation u.role z.zone_type = true →
      (create_reservation db res now).result =
        .error (.forbidden "User role is not allowed to park in this zone type")) ∧
    (∀ db lp sid now u sp z,
      db.users.find? (fun x => x.license_plate == lp) = some u →
      db.spots.find? (fun x => x.id == sid) = some sp →
      db.zones.find? (fun x => x.id == sp.parking_zone_id) = some z →
      zoneViolation u.role z.zone_type = true →
      (check_in db ⟨lp, sid⟩ now).result =
        .error (.forbidden "You are not authorized to park in this zone. Report generated.")) := by
  refine ⟨?_, ?_, ?_, ?_⟩
  · rintro role zt (h | h | h) <;> subst h <;> (simp [zoneViolation]; tauto)
  · intro zt
    constructor <;> simp [zoneViolation]
  · intro db res now u sp z hu hs hz hv
    simp [create_reservation, hu, hs, hz, hv]
  · intro db lp sid now u sp z hu hs hz hv
    simp [check_in, check_user_and_zone_rules, hu, hs, hz, hv]


/-- C1: once a reservation request has passed the earlier admission steps
(user, spot and zone found, zone check, time window, VIP check), it is
rejected with the overlap Conflict exactly when some active or pending
reservation on the spot strictly overlaps the requested half-open window;
a merely boundary-touching reservation does not trigger this rejection. -/
theorem create_reservation_overlap_iff (db : DB) (res : ReservationCreate)
    (now : Int) (u : User) (sp : ParkingSpot) (z : ParkingZone)
    (hu : db.users.find? (fun x => x.id == res.user_id) = some u)
    (hs : db.spots.find? (fun x => x.id == res.spot_id) = some sp)
    (hz : db.zones.find? (fun x => x.id == sp.parking_zone_id) = some z)
    (hzone : zoneViolation u.role z.zone_type = false)
    (hwin : windowError db res now = none)
    (hvip : (sp.is_vip && u.role != "vip") = false) :
    (create_reservation db res now).result =
        .error (.badRequest "Spot already reserved in that period") ↔
      ∃ r ∈ db.reservations, r.spot_id = res.spot_id ∧
        (r.status = "active" ∨ r.status = "pending") ∧
        res.start_time < r.end_time ∧ res.end_time > r.start_time := by
  simp only [create_reservation, hu, hs, hz, hzone, hwin, hvip,
    Bool.false_eq_true, if_false]
  constructor
  · intro h
    match hov : firstOverlap db res with
    | some r =>
      have hmem := List.mem_of_find?_eq_some hov
      have hpred := List.find?_some hov
      simp only [Bool.and_eq_true, Bool.or_eq_true, beq_iff_eq,
        decide_eq_true_eq] at hpred
      exact ⟨r, hmem, hpred.1.1.1, hpred.1.1.2, hpred.1.2, hpred.2⟩
    | none =>
      rw [hov] at h
      cases hos : openSessionOnSpot db res.spot_id <;> rw [hos] at h <;> simp at h
  · rintro ⟨r, hmem, hspot, hstat, h1, h2⟩
    have hne : firstOverlap db res ≠ none := by
      intro hnone
      apply List.find?_eq_none.mp hnone r hmem
      simp only [Bool.and_eq_true, Bool.or_eq_true, beq_iff_eq,
        decide_eq_true_eq]
      exact ⟨⟨⟨hspot, hstat⟩, h1⟩, h2⟩
    match hov : firstOverlap db res with
    | some r2 => rfl
    | none => exact absurd hov hne

/-- C1 witness: in the fixture database the request [15, 25) strictly
overlaps the pending reservation [10, 20) and is rejected with Conflict. -/
theorem create_reservation_overlap_iff_witness :
    (create_reservation exDb exReqOverlap 0).result =
      .error (.badRequest "Spot already reserved in that period") :=
  (create_reservation_overlap_iff exDb exReqOverlap 0 exUser exSpotEmpty exZone
    rfl rfl rfl rfl rfl rfl).mpr ⟨exPending, by decide, by decide, by decide,
      by decide, by decide⟩


theorem create_reservation_ok_inv (db : DB) (res : ReservationCreate)
    (now : Int) (rr : Reservation)
    (h : (create_reservation db res now).result = .ok rr) :
    firstOverlap db res = none ∧
    openSessionOnSpot db res.spot_id = none ∧
    rr = ⟨nextResId db, res.user_id, res.spot_id, res.event_id,
      res.start_time, res.end_time, "pending"⟩ ∧
    (create_reservation db res now).final =
      { db with reservations := db.reservations ++ [rr],
                spots := updateSpotStatus db.spots res.spot_id "occupied" } ∧
    (create_reservation db res now).commits =
      [{ db with reservations := db.reservations ++ [rr]},
        (create_reservation db res now).final] := by
  unfold create_reservation at h ⊢
  rcases h1 : db.users.find? (fun u => u.id == res.user_id) with _ | u <;>
    simp only [h1] at h ⊢
  · simp at h
  rcases h2 : db.spots.find? (fun s => s.id == res.spot_id) with _ | sp <;>
    simp only [h2] at h ⊢
  · simp at h
  rcases h3 : db.zones.find? (fun z => z.id == sp.parking_zone_id) with _ | z <;>
    simp only [h3] at h ⊢
  · simp at h
  rcases h4 : zoneViolation u.role z.zone_type <;>
    simp only [h4, Bool.false_eq_true, if_false, if_true] at h ⊢
  case true => simp at h
  rcases h5 : windowError db res now with _ | e <;> simp only [h5] at h ⊢
  case some => simp at h
  rcases h6 : sp.is_vip && u.role != "vip" <;>
    simp only [h6, Bool.false_eq_true, if_false, if_true] at h ⊢
  case true => simp at h
  rcases h7 : firstOverlap db res with _ | r0 <;> simp only [h7] at h ⊢
  case some => simp at h
  rcases h8 : openSessionOnSpot db res.spot_id with _ | s0 <;>
    simp only [h8] at h ⊢
  case some => simp at h
  simp only [Except.ok.injEq] at h
  subst h
  exact ⟨trivial, trivial, rfl, rfl, rfl⟩


/-- A failure of check_user_and_zone_rules leaves the reservations table as
it was (it only ever appends a report). -/
theorem rules_failure_reservations (db : DB) (lp : String) (sid : Nat)
    (now : Int) (e : ApiError) (commits : List DB) (final : DB)
    (h : check_user_and_zone_rules db lp sid now = .failure e commits final) :
    final.reservations = db.reservations := by
  unfold check_user_and_zone_rules at h
  repeat' (first | split at h | dsimp only at h)
  all_goals cases h <;> rfl

/-- Check-in never touches the reservations table. -/
theorem check_in_reservations_unchanged (db : DB) (s : SessionCreate)
    (now : Int) : (check_in db s now).final.reservations = db.reservations := by
  unfold check_in
  cases hr : check_user_and_zone_rules db s.license_plate s.spot_id now with
  | failure e commits final =>
    exact rules_failure_reservations db s.license_plate s.spot_id now
      e commits final hr
  | success u sp z ar =>
    repeat' (first | split | dsimp only)
    all_goals first | rfl | simp_all

/-- Check-out never touches the reservations table. -/
theorem check_out_reservations_unchanged (db : DB) (sid : Nat) (now : Int) :
    (check_out db sid now).final.reservations = db.reservations := by
  unfold check_out
  repeat' (first | split | dsimp only)

/-- Cancellation either leaves the reservations table alone (a failure) or
marks the addressed reservation cancelled. -/
theorem cancel_reservations_shape (db : DB) (c : ReservationCancel)
    (now : Int) :
    (cancel_reservation db c now).final.reservations = db.reservations ∨
    (cancel_reservation db c now).final.reservations = db.reservations.map
      (fun r => if r.id == c.reservation_id then { r with status := "cancelled" }
        else r) := by
  unfold cancel_reservation
  repeat' (first | split | dsimp only)
  all_goals first | exact Or.inl rfl | exact Or.inr rfl


/-- Shape of create_reservation: either the reservations table is untouched,
or the overlap check came back clean and the new pending row was appended. -/
theorem create_reservation_shape (db : DB) (res : ReservationCreate)
    (now : Int) :
    (create_reservation db res now).final.reservations = db.reservations ∨
    (firstOverlap db res = none ∧
      (create_reservation db res now).final.reservations =
        db.reservations ++ [⟨nextResId db, res.user_id, res.spot_id,
          res.event_id, res.start_time, res.end_time, "pending"⟩]) := by
  unfold create_reservation
  repeat' (first | split | dsimp only)
  all_goals first
    | exact Or.inl rfl
    | exact Or.inr ⟨by assumption, rfl⟩

/-- Marking one reservation cancelled cannot create a live overlap. -/
theorem liveOverlapFree_map_cancel (rs : List Reservation) (rid : Nat)
    (h : LiveOverlapFree rs) :
    LiveOverlapFree (rs.map fun r =>
      if r.id == rid then { r with status := "cancelled" } else r) := by
  intro r1 h1 r2 h2 hne hspot hs1 hs2 t hts
  simp only [List.mem_map] at h1 h2
  obtain ⟨a, ha, rfl⟩ := h1
  obtain ⟨b, hb, rfl⟩ := h2
  cases hca : a.id == rid <;> cases hcb : b.id == rid <;>
    simp only [hca, hcb, if_true, if_false, Bool.false_eq_true] at hne hspot hs1 hs2 hts
  · exact h a ha b hb hne hspot hs1 hs2 t hts
  · rcases hs2 with h2c | h2c <;> exact absurd h2c (by decide)
  · rcases hs1 with h1c | h1c <;> exact absurd h1c (by decide)
  · rcases hs1 with h1c | h1c <;> exact absurd h1c (by decide)

/-- C2: each of the four core operations preserves the invariant that
distinct pending/active reservations on one spot have disjoint half-open
windows. -/
theorem core_ops_preserve_overlap_free (db : DB) (op : Op) (now : Int)
    (h : LiveOverlapFree db.reservations) :
    LiveOverlapFree (applyOp db op now).reservations := by
  cases op with
  | checkIn req =>
    rw [applyOp, check_in_reservations_unchanged]; exact h
  | checkOut sid =>
    rw [applyOp, check_out_reservations_unchanged]; exact h
  | cancelRes req =>
    rw [applyOp]
    rcases cancel_reservations_shape db req now with hsh | hsh
    · rw [hsh]; exact h
    · rw [hsh]; exact liveOverlapFree_map_cancel _ _ h
  | createRes req =>
    rw [applyOp]
    rcases create_reservation_shape db req now with hsh | ⟨hov, hsh⟩
    · rw [hsh]; exact h
    · rw [hsh]
      intro r1 h1 r2 h2 hne hspot hs1 hs2 t hts
      rcases List.mem_append.mp h1 with ha | ha <;>
        rcases List.mem_append.mp h2 with hb | hb
      · exact h r1 ha r2 hb hne hspot hs1 hs2 t hts
      · obtain rfl := List.mem_singleton.mp hb
        dsimp only at hspot hts
        refine absurd ?_ (List.find?_eq_none.mp hov r1 ha)
        simp only [Bool.and_eq_true, Bool.or_eq_true, beq_iff_eq,
          decide_eq_true_eq]
        exact ⟨⟨⟨hspot, hs1.symm⟩, by omega⟩, by omega⟩
      · obtain rfl := List.mem_singleton.mp ha
        dsimp only at hspot hts
        refine absurd ?_ (List.find?_eq_none.mp hov r2 hb)
        simp only [Bool.and_eq_true, Bool.or_eq_true, beq_iff_eq,
          decide_eq_true_eq]
        exact ⟨⟨⟨hspot.symm, hs2.symm⟩, by omega⟩, by omega⟩
      · obtain rfl := List.mem_singleton.mp ha
        obtain h2b := List.mem_singleton.mp hb
        exact hne h2b.symm

/-- C2 witness: the invariant holds in the no-reservation fixture and is
preserved by a creation request there. -/
theorem core_ops_preserve_overlap_free_witness :
    LiveOverlapFree (applyOp exDbNoRes (Op.createRes exReqBoundary) 0).reservations :=
  core_ops_preserve_overlap_free exDbNoRes (Op.createRes exReqBoundary) 0
    (by simp [LiveOverlapFree, exDbNoRes])


/-- Every row of updateSpotStatus carrying the addressed id has the new
status. -/
theorem updateSpotStatus_mem (spots : List ParkingSpot) (sid : Nat)
    (st : String) :
    ∀ s ∈ updateSpotStatus spots sid st, s.id = sid → s.status = st := by
  intro s hs hid
  simp only [updateSpotStatus, List.mem_map] at hs
  obtain ⟨a, _, rfl⟩ := hs
  cases hca : a.id == sid <;>
    simp only [hca, if_true, if_false, Bool.false_eq_true] at hid ⊢
  exact absurd hid (beq_eq_false_iff_ne.mp hca)

/-- C6 (amended): cancelling a pending reservation as its owner or an admin
succeeds and marks it cancelled; and when the spot was cached occupied and
neither another live not-yet-ended reservation nor an open session remains,
the spot is reset to empty. -/
theorem cancel_pending_by_owner (db : DB) (c : ReservationCancel) (now : Int)
    (resv : Reservation) (user : User) (sp : ParkingSpot)
    (hr : db.reservations.find? (fun r => r.id == c.reservation_id) = some resv)
    (hu : db.users.find? (fun u => u.id == c.user_id) = some user)
    (hown : resv.user_id = user.id ∨ user.role = "admin")
    (hst : resv.status = "pending")
    (hsp : db.spots.find? (fun s => s.id == resv.spot_id) = some sp)
    (hocc : sp.status = "occupied")
    (hnores : ∀ r ∈ db.reservations, r.id ≠ resv.id →
      ¬(r.spot_id = sp.id ∧ (r.status = "active" ∨ r.status = "pending") ∧
        r.end_time > now))
    (hnoses : ∀ s ∈ db.sessions, ¬(s.spot_id = sp.id ∧ s.check_out_time = none)) :
    (cancel_reservation db c now).result = .ok () ∧
    (cancel_reservation db c now).final =
      { db with
          reservations := db.reservations.map fun r =>
            if r.id == c.reservation_id then { r with status := "cancelled" }
            else r,
          spots := updateSpotStatus db.spots sp.id "empty" } := by
  have hc1 : (resv.user_id != user.id && user.role != "admin") = false := by
    rcases hown with h | h <;> simp [h]
  have hc2 : (resv.status == "cancelled") = false := by rw [hst]; rfl
  have hc3 : (resv.status == "active" && decide (resv.start_time < now)) = false := by
    rw [hst]; rfl
  have hfr : (db.reservations.map fun r =>
      if r.id == c.reservation_id then { r with status := "cancelled" }
      else r).find? (fun r =>
        r.spot_id == sp.id && (r.status == "active" || r.status == "pending") &&
        r.id != resv.id && decide (r.end_time > now)) = none := by
    rw [List.find?_eq_none]
    intro r hrm
    simp only [List.mem_map] at hrm
    obtain ⟨a, ham, rfl⟩ := hrm
    cases hca : a.id == c.reservation_id <;>
      simp only [hca, if_true, if_false, Bool.false_eq_true] <;>
      simp only [Bool.and_eq_true, Bool.or_eq_true, beq_iff_eq, bne_iff_ne,
        decide_eq_true_eq]
    · rintro ⟨⟨⟨h1, h2⟩, h3⟩, h4⟩
      exact hnores a ham h3 ⟨h1, h2, h4⟩
    · rintro ⟨⟨⟨h1, h2⟩, h3⟩, h4⟩
      rcases h2 with hh | hh <;> exact absurd hh (by decide)
  have hfs : db.sessions.find? (fun s =>
      s.spot_id == sp.id && s.check_out_time.isNone) = none := by
    rw [List.find?_eq_none]
    intro s hsm
    simp only [Bool.and_eq_true, beq_iff_eq, Option.isNone_iff_eq_none]
    rintro ⟨h1, h2⟩
    exact hnoses s hsm ⟨h1, h2⟩
  unfold cancel_reservation
  simp only [hr, hu, hc1, hc2, hc3, Bool.false_eq_true, if_false]
  try dsimp only
  simp only [hsp, hocc, beq_self_eq_true, if_true]
  try dsimp only
  rw [hfr, hfs]
  simp only [Option.isSome_none, Bool.or_false, Bool.false_eq_true, if_false]
  exact ⟨trivial, trivial⟩


/-- C6 witness: owner cancels the sole pending reservation of an occupied
spot; the call succeeds (and by the theorem the spot is reset to empty). -/
theorem cancel_pending_by_owner_witness :
    (cancel_reservation exDbOccupied ⟨1, 1⟩ 0).result = .ok () :=
  (cancel_pending_by_owner exDbOccupied ⟨1, 1⟩ 0 exPending exUser exSpotOccupied
    rfl rfl (Or.inl rfl) rfl rfl rfl (by decide) (by decide)).1

/-- C6 counterexample: the owner cancels the sole pending reservation while
the spot is cached `reserved`; no session and no other reservation remains,
yet the spot is left `reserved` instead of being set to empty. -/
theorem cancel_sole_pending_leaves_reserved_spot :
    (cancel_reservation exDbReservedSpot ⟨1, 1⟩ 0).result = .ok () ∧
    exDbReservedSpot.sessions = [] ∧
    (∀ r ∈ exDbReservedSpot.reservations, r.id = 1) ∧
    (cancel_reservation exDbReservedSpot ⟨1, 1⟩ 0).final.spots.map
      (fun s => s.status) = ["reserved"] := by decide

/-- Inversion of a successful rules check: every row was found, the zone
check passed, and the returned reservation is the active-reservation lookup. -/
theorem rules_success_inv (db : DB) (lp : String) (sid : Nat) (now : Int)
    (u : User) (sp : ParkingSpot) (z : ParkingZone) (ar : Option Reservation)
    (h : check_user_and_zone_rules db lp sid now = .success u sp z ar) :
    db.users.find? (fun x => x.license_plate == lp) = some u ∧
    db.spots.find? (fun x => x.id == sid) = some sp ∧
    db.zones.find? (fun x => x.id == sp.parking_zone_id) = some z ∧
    zoneViolation u.role z.zone_type = false ∧
    ar = activeReservationFor db u.id sid now := by
  unfold check_user_and_zone_rules at h
  repeat' (first | split at h | dsimp only at h)
  all_goals cases h
  all_goals rename_i hv _
  · exact ⟨by assumption, by assumption, by assumption,
      Bool.not_eq_true _ ▸ hv, rfl⟩

/-- Inversion of a successful check-in: the rules check succeeded, the spot
was cached empty, the returned session is the fresh open one, and the two
commits are the session insert followed by the spot status update. -/
theorem check_in_ok_inv (db : DB) (s : SessionCreate) (now : Int)
    (ses : ParkingSession)
    (h : (check_in db s now).result = .ok ses) :
    ∃ u sp z ar,
      check_user_and_zone_rules db s.license_plate s.spot_id now =
        .success u sp z ar ∧
      sp.status = "empty" ∧
      ses = ⟨nextSessionId db, u.id, s.spot_id, now, none⟩ ∧
      (check_in db s now).final =
        { db with sessions := db.sessions ++ [ses],
                  spots := updateSpotStatus db.spots s.spot_id "occupied" } ∧
      (check_in db s now).commits =
        [{ db with sessions := db.sessions ++ [ses] },
          (check_in db s now).final] := by
  unfold check_in at h ⊢
  cases hr : check_user_and_zone_rules db s.license_plate s.spot_id now with
  | failure e commits final =>
    rw [hr] at h
    simp at h
  | success u sp z ar =>
    rw [hr] at h
    dsimp only at h ⊢
    rcases h1 : db.sessions.find?
        (fun ps => ps.user_id == u.id && ps.check_out_time.isNone) with _ | s1
    · rw [h1] at h ⊢
      dsimp only at h ⊢
      rcases h2 : db.sessions.find?
          (fun ps => ps.spot_id == s.spot_id && ps.check_out_time.isNone) with _ | s2
      · rw [h2] at h ⊢
        dsimp only at h ⊢
        rcases h3 : sp.status != "empty"
        · rw [h3] at h
          simp only [Bool.false_eq_true, if_false] at h ⊢
          simp only [Except.ok.injEq] at h
          subst h
          exact ⟨u, sp, z, ar, rfl, bne_eq_false_iff_eq.mp h3, rfl, rfl, rfl⟩
        · rw [h3] at h
          simp at h
      · rw [h2] at h
        simp at h
    · rw [h1] at h
      simp at h


/-- Every row of the check-out session update carrying the addressed id is
closed at now. -/
theorem closeSession_mem (sessions : List ParkingSession) (sid : Nat)
    (now : Int) :
    ∀ s2 ∈ sessions.map (fun s =>
      if s.id == sid then { s with check_out_time := some now } else s),
      s2.id = sid → s2.check_out_time = some now := by
  intro s2 hs hid
  simp only [List.mem_map] at hs
  obtain ⟨a, _, rfl⟩ := hs
  cases hca : a.id == sid <;>
    simp only [hca, if_true, if_false, Bool.false_eq_true] at hid ⊢
  exact absurd hid (beq_eq_false_iff_ne.mp hca)

/-- C7: check-out fails NotFound without touching state when the session is
absent or already closed; otherwise it closes the session at now and sets the
spot to reserved exactly when an active reservation covers now, to empty
otherwise. -/
theorem check_out_spec (db : DB) (sid : Nat) (now : Int) :
    ((db.sessions.find? (fun s => s.id == sid) = none ∨
      (∃ ses, db.sessions.find? (fun s => s.id == sid) = some ses ∧
        ses.check_out_time.isSome = true)) →
      (check_out db sid now).result =
        .error (.notFound "Active session not found or already checked out.") ∧
      (check_out db sid now).final = db ∧
      (check_out db sid now).commits = []) ∧
    (∀ ses sp, db.sessions.find? (fun s => s.id == sid) = some ses →
      ses.check_out_time = none →
      db.spots.find? (fun x => x.id == ses.spot_id) = some sp →
      (check_out db sid now).result = .ok () ∧
      (∀ s2 ∈ (check_out db sid now).final.sessions, s2.id = sid →
        s2.check_out_time = some now) ∧
      ((∃ r ∈ db.reservations, r.spot_id = sp.id ∧ r.status = "active" ∧
          r.start_time ≤ now ∧ r.end_time > now) →
        ∀ s2 ∈ (check_out db sid now).final.spots, s2.id = sp.id →
          s2.status = "reserved") ∧
      ((¬∃ r ∈ db.reservations, r.spot_id = sp.id ∧ r.status = "active" ∧
          r.start_time ≤ now ∧ r.end_time > now) →
        ∀ s2 ∈ (check_out db sid now).final.spots, s2.id = sp.id →
          s2.status = "empty")) := by
  constructor
  · rintro (hn | ⟨ses, hs, hiso⟩)
    · unfold check_out
      simp only [hn]
      exact ⟨trivial, trivial, trivial⟩
    · unfold check_out
      simp only [hs, hiso, if_true]
      exact ⟨trivial, trivial, trivial⟩
  · intro ses sp hs hco hsp
    unfold check_out
    simp only [hs, hco, Option.isSome_none, Bool.false_eq_true, if_false]
    try dsimp only
    simp only [hsp]
    try dsimp only
    refine ⟨trivial, closeSession_mem db.sessions sid now, ?_, ?_⟩
    · intro hcov
      have hov : (db.reservations.find? (fun r =>
          r.spot_id == sp.id && r.status == "active" &&
          decide (r.start_time ≤ now) && decide (r.end_time > now))).isSome = true := by
        rw [List.find?_isSome]
        obtain ⟨r, hr, h1, h2, h3, h4⟩ := hcov
        refine ⟨r, hr, ?_⟩
        simp only [Bool.and_eq_true, beq_iff_eq, decide_eq_true_eq]
        exact ⟨⟨⟨h1, h2⟩, h3⟩, h4⟩
      simp only [hov, if_true]
      exact updateSpotStatus_mem db.spots sp.id "reserved"
    · intro hcov
      have hov : (db.reservations.find? (fun r =>
          r.spot_id == sp.id && r.status == "active" &&
          decide (r.start_time ≤ now) && decide (r.end_time > now))) = none := by
        rw [List.find?_eq_none]
        intro r hr hp
        simp only [Bool.and_eq_true, beq_iff_eq, decide_eq_true_eq] at hp
        exact hcov ⟨r, hr, hp.1.1.1, hp.1.1.2, hp.1.2, hp.2⟩
      simp only [hov, Option.isSome_none, Bool.false_eq_true, if_false]
      exact updateSpotStatus_mem db.spots sp.id "empty"


/-- C8 (amended): on the success path both creation flows publish two
separate commits, and the first commit already persists the new row while
the spot rows are still untouched. -/
theorem writes_commit_in_two_transactions :
    (∀ db res now rr, (create_reservation db res now).result = .ok rr →
      (create_reservation db res now).commits =
        [{ db with reservations := db.reservations ++ [rr] },
          (create_reservation db res now).final] ∧
      ({ db with reservations := db.reservations ++ [rr] } : DB).spots =
        db.spots) ∧
    (∀ db s now ses, (check_in db s now).result = .ok ses →
      (check_in db s now).commits =
        [{ db with sessions := db.sessions ++ [ses] },
          (check_in db s now).final] ∧
      ({ db with sessions := db.sessions ++ [ses] } : DB).spots = db.spots) := by
  constructor
  · intro db res now rr h
    obtain ⟨-, -, -, -, hc⟩ := create_reservation_ok_inv db res now rr h
    exact ⟨hc, rfl⟩
  · intro db s now ses h
    obtain ⟨u, sp, z, ar, -, -, -, -, hc⟩ := check_in_ok_inv db s now ses h
    exact ⟨hc, rfl⟩

/-- C8 counterexample: in a concrete successful reservation creation the
first published commit holds the new reservation while the spot status is
still empty, and it differs from the final snapshot — the multi-step write
is not one atomic transaction. -/
theorem partial_commit_visible :
    (create_reservation exDbNoRes exReqBoundary 0).commits.head? =
      some exMidCommit ∧
    exMidCommit ≠ (create_reservation exDbNoRes exReqBoundary 0).final ∧
    exMidCommit.reservations ≠ [] ∧
    (∀ s ∈ exMidCommit.spots, s.status = "empty") := by decide

/-- A successful reservation creation passed the VIP gate. -/
theorem create_reservation_ok_vip (db : DB) (res : ReservationCreate)
    (now : Int) (rr : Reservation)
    (h : (create_reservation db res now).result = .ok rr) :
    ∀ u sp, db.users.find? (fun x => x.id == res.user_id) = some u →
      db.spots.find? (fun x => x.id == res.spot_id) = some sp →
      (sp.is_vip && u.role != "vip") = false := by
  intro u sp hu hs
  unfold create_reservation at h
  simp only [hu, hs] at h
  rcases h3 : db.zones.find? (fun z => z.id == sp.parking_zone_id) with _ | z <;>
    simp only [h3] at h
  · simp at h
  rcases h4 : zoneViolation u.role z.zone_type <;>
    simp only [h4, Bool.false_eq_true, if_false] at h
  case true => simp at h
  rcases h5 : windowError db res now with _ | e <;> simp only [h5] at h
  case some => simp at h
  rcases h6 : sp.is_vip && u.role != "vip"
  · rfl
  · rw [h6] at h
    simp at h

/-- C9: the role enum of models.py has no "vip" member, so no stored user can
hold the role the VIP gate tests for, and a reservation on a VIP spot can
never succeed for a user whose role is one of the declared enum values. -/
theorem vip_role_unrepresentable :
    ("vip" ∉ user_roles) ∧
    (∀ db res now rr sp u,
      db.users.find? (fun x => x.id == res.user_id) = some u →
      db.spots.find? (fun x => x.id == res.spot_id) = some sp →
      u.role ∈ user_roles → sp.is_vip = true →
      (create_reservation db res now).result ≠ .ok rr) := by
  constructor
  · decide
  · intro db res now rr sp u hu hs hrole hvip h
    have hv := create_reservation_ok_vip db res now rr h u sp hu hs
    simp only [hvip, Bool.true_and] at hv
    have : u.role = "vip" := bne_eq_false_iff_eq.mp hv
    rw [this] at hrole
    exact absurd hrole (by decide)

/-- C10: a successful reservation creation caches the spot as occupied; a
check-in succeeds only when the spot is cached empty; and an attempt that
passes every earlier admission step — even by the holder of the covering
active reservation — fails with the Conflict error whenever the cached
status is not empty. -/
theorem spot_status_gates_check_in :
    (∀ db res now rr, (create_reservation db res now).result = .ok rr →
      ∀ s ∈ (create_reservation db res now).final.spots, s.id = res.spot_id →
        s.status = "occupied") ∧
    (∀ db s now ses, (check_in db s now).result = .ok ses →
      ∃ sp, db.spots.find? (fun x => x.id == s.spot_id) = some sp ∧
        sp.status = "empty") ∧
    (∀ db sc now u sp z ar,
      db.users.find? (fun x => x.license_plate == sc.license_plate) = some u →
      db.spots.find? (fun x => x.id == sc.spot_id) = some sp →
      db.zones.find? (fun x => x.id == sp.parking_zone_id) = some z →
      zoneViolation u.role z.zone_type = false →
      activeReservationFor db u.id sc.spot_id now = some ar →
      db.sessions.find? (fun ps => ps.user_id == u.id &&
        ps.check_out_time.isNone) = none →
      db.sessions.find? (fun ps => ps.spot_id == sc.spot_id &&
        ps.check_out_time.isNone) = none →
      sp.status ≠ "empty" →
      (check_in db sc now).result =
        .error (.badRequest "Spot is not available for check-in.")) := by
  refine ⟨?_, ?_, ?_⟩
  · intro db res now rr h s4 hmem hid
    obtain ⟨-, -, -, hfin, -⟩ := create_reservation_ok_inv db res now rr h
    rw [hfin] at hmem
    exact updateSpotStatus_mem db.spots res.spot_id "occupied" s4 hmem hid
  · intro db s now ses h
    obtain ⟨u, sp, z, ar, hrules, hempty, -, -, -⟩ := check_in_ok_inv db s now ses h
    obtain ⟨-, hsp, -, -, -⟩ :=
      rules_success_inv db s.license_plate s.spot_id now u sp z ar hrules
    exact ⟨sp, hsp, hempty⟩
  · intro db sc now u sp z ar hu hs hz hzv har hsu hss hne
    unfold check_in check_user_and_zone_rules
    simp only [hu, hs, hz, hzv, Bool.false_eq_true, if_false]
    try dsimp only
    simp only [har, Option.isNone_some, Bool.false_and, Bool.and_false,
      if_false]
    try dsimp only
    try simp only [hsu, hss]
    simp only [Bool.false_eq_true, if_false]
    try dsimp only
    simp only [hsu]
    have hbne : (sp.status != "empty") = true := bne_iff_ne.mpr hne
    simp only [hbne]
    rfl

/-- C4 (amended): a reservation request that references an event with a start
time is subject to no event checks at all in the endpoint: the timing gate
returns no error, and the request can never be rejected with either general
invalid-window message. -/
theorem event_requests_skip_window_checks (db : DB) (res : ReservationCreate)
    (now : Int) (ev : Events)
    (hev : eventForRequest db res.event_id = some ev)
    (hst : ev.start_time.isSome = true) :
    windowError db res now = none ∧
    ∀ e, (create_reservation db res now).result = .error e →
      e ≠ .badRequest "Reservation start time cannot be in the past." ∧
      e ≠ .badRequest "Reservation end time must be after start time." := by
  have hw : windowError db res now = none := by
    simp [windowError, hev, hst]
  refine ⟨hw, ?_⟩
  intro e he
  unfold create_reservation at he
  repeat' (first | split at he | dsimp only at he)
  all_goals simp_all
  all_goals subst he
  all_goals decide

/-- C4 witness: the spec scenario (event at 14:00, request submitted at 13:25
for a 13:40 start) sails through the endpoint event branch untouched. -/
theorem event_requests_skip_window_checks_witness :
    windowError exDbEvent exReqEventOnTime 805 = none :=
  (event_requests_skip_window_checks exDbEvent exReqEventOnTime 805 exEvent
    rfl rfl).1

/-- C4 counterexample: an event-linked request submitted 240 minutes before
the event (well before the 30-minute window), starting after the event start,
on a spot whose lot is outside the allowed list, is accepted. -/
theorem event_request_outside_window_accepted :
    (600 : Int) < 840 - 30 ∧ (900 : Int) > 840 ∧
    exSpotEmpty.lot_name ∉ exEvent.allowed_parking_lots ∧
    (create_reservation exDbEvent exReqEvent 600).result =
      .ok ⟨0, 1, 1, some 5, 900, 910, "pending"⟩ := by decide

end Parklee
